import Mathlib

set_option maxRecDepth 20000

/-!
Verification of the core comparison logic of `src/main.py` (Truth vs Extract
workbook generator).  The Python functions `_normalize`, `_is_match`, `_dig`,
`extract_base_filename`, `normalize_key` and `build_comparison` are shallowly
embedded below.

Modelling conventions:
* Python scalar/JSON values are the inductive type `PyVal` (None, bool, int,
  float, NaN, ±inf, str, list, dict).  Python floats are modelled as exact
  rationals (`ℚ`), with NaN and the infinities as separate constructors;
  float rounding of `/ 1000` is not modelled (exact division instead).
* Python dicts are association lists with insertion-order semantics
  (`dictInsert` updates in place or appends, like CPython dicts).
* Python exceptions are modelled with `Except String`: a thrown-and-not-caught
  exception surfaces as `.error`, a caught one is an internal `Option`.
* `json.loads` (standard library, not repository code) is a parameter
  `dec : String → Option PyVal`; `Option.none` models `JSONDecodeError`.
* `datetime.utcfromtimestamp` (standard library) is implemented from its
  documented semantics: UTC civil date of `floor(ts / 86400)` days from the
  epoch, failing (`Option.none`) outside the representable year range 1..9999.
* Python `str.strip` / `str.lower` / `str.split("|")` are implemented on the
  character list of the string (`pyStrip`, `pyLower`, `pySplitPipe`).
-/

/-- A Python value as it can appear in the truth JSON / extract rows of
`src/main.py`: `None`, `bool`, `int`, `float` (split into finite rationals,
NaN and signed infinity), `str`, `list`, `dict`. -/
inductive PyVal where
  | none
  | bool (b : Bool)
  | int (n : ℤ)
  | float (q : ℚ)
  | nan
  | inf (neg : Bool)
  | str (s : String)
  | list (xs : List PyVal)
  | dict (kvs : List (String × PyVal))

/-- Python truthiness (`bool(v)`) for the values of `PyVal`. -/
def pyTruthy : PyVal → Bool
  | .none => false
  | .bool b => b
  | .int n => !(n == 0)
  | .float q => !(q == 0)
  | .nan => true
  | .inf _ => true
  | .str s => !(s == "")
  | .list xs => !xs.isEmpty
  | .dict kvs => !kvs.isEmpty

/-- Python `a or b` (first truthy operand, else the second). -/
def pyOr (a b : PyVal) : PyVal := if pyTruthy a then a else b

/-- Python `str.strip()` on the character list (ASCII whitespace model). -/
def pyCharsStrip (l : List Char) : List Char :=
  ((l.dropWhile Char.isWhitespace).reverse.dropWhile Char.isWhitespace).reverse

/-- Python `s.strip()`. -/
def pyStrip (s : String) : String := String.mk (pyCharsStrip s.data)

/-- Python `s.lower()` (per-character lowering, as for the ASCII data of the
repository). -/
def pyLower (s : String) : String := String.mk (s.data.map Char.toLower)

/-- Helper of `pySplitPipe`: accumulates the current chunk (reversed). -/
def splitPipeAux : List Char → List Char → List String
  | [], acc => [String.mk acc.reverse]
  | c :: l, acc =>
    if c = '|' then String.mk acc.reverse :: splitPipeAux l []
    else splitPipeAux l (c :: acc)

/-- Python `key.split("|")` (keeps empty chunks, like CPython). -/
def pySplitPipe (s : String) : List String := splitPipeAux s.data []

/-- Python `"|" in key`. -/
def hasPipe (s : String) : Bool := s.data.contains '|'

/-- Exact rational division by a positive integer constant (used for the
`val / 1000` of `_normalize`; written with `Rat.divInt` so that it reduces). -/
def ratDivPos (q : ℚ) (n : ℕ) : ℚ := Rat.divInt q.num (q.den * n)

/-- Python `int(f)` for a finite float: truncation toward zero. -/
def ratTrunc (q : ℚ) : ℤ := Int.tdiv q.num q.den

def pow10 : ℕ → ℤ
  | 0 => 1
  | k + 1 => 10 * pow10 k

/-- Python `repr` of a finite float, for moderate magnitudes: exact decimal
expansion (binary floats have terminating decimal expansions), `n.0` for whole
values.  Scientific notation for extreme magnitudes is not modelled; no claim
depends on it. -/
def floatRepr (q : ℚ) : String :=
  if q.den = 1 then toString q.num ++ ".0"
  else
    match (List.range 1200).find? (fun k => (Rat.divInt (q.num * pow10 k) q.den).den = 1) with
    | Option.none => toString q.num ++ "/" ++ toString q.den
    | some k =>
      let n := (Rat.divInt (q.num * pow10 k) q.den).num
      let sign := if n < 0 then "-" else ""
      let digits := toString n.natAbs
      let digits :=
        if digits.length ≤ k then String.mk (List.replicate (k + 1 - digits.length) '0') ++ digits
        else digits
      let point := digits.length - k
      sign ++ digits.take point ++ "." ++ digits.drop point

mutual
/-- Python `repr(v)` (quote-escaping subtleties of `repr` on strings are not
modelled; no claim depends on them). -/
def pyRepr : PyVal → String
  | .none => "None"
  | .bool b => if b then "True" else "False"
  | .int n => toString n
  | .float q => floatRepr q
  | .nan => "nan"
  | .inf neg => if neg then "-inf" else "inf"
  | .str s => "\x27" ++ s ++ "\x27"
  | .list xs => "[" ++ pyReprSeq xs ++ "]"
  | .dict kvs => "\x7b" ++ pyReprEntries kvs ++ "\x7d"

def pyReprSeq : List PyVal → String
  | [] => ""
  | [x] => pyRepr x
  | x :: y :: xs => pyRepr x ++ ", " ++ pyReprSeq (y :: xs)

def pyReprEntries : List (String × PyVal) → String
  | [] => ""
  | [(k, v)] => "\x27" ++ k ++ "\x27: " ++ pyRepr v
  | (k, v) :: e :: es => "\x27" ++ k ++ "\x27: " ++ pyRepr v ++ ", " ++ pyReprEntries (e :: es)
end

/-- Python `str(v)`: identity on strings, `repr` otherwise. -/
def pyStr : PyVal → String
  | .str s => s
  | v => pyRepr v

/-- The civil (proleptic Gregorian) date of a day count from 1970-01-01
(Howard Hinnant's `civil_from_days`, the algorithm used by every UTC
`timestamp → date` conversion).  Returns `(year, month, day)`. -/
def civilFromDays (z0 : Int) : Int × Nat × Nat :=
  let z := z0 + 719468
  let era := Int.fdiv z 146097
  let doe := (z - era * 146097).toNat
  let yoe := (doe - doe / 1460 + doe / 36524 - doe / 146096) / 365
  let y : Int := era * 400 + yoe
  let doy := doe - (365 * yoe + yoe / 4 - yoe / 100)
  let mp := (5 * doy + 2) / 153
  let d := doy - (153 * mp + 2) / 5 + 1
  let m := if mp < 10 then mp + 3 else mp - 9
  (if m ≤ 2 then y + 1 else y, m, d)

/-- `datetime.utcfromtimestamp(ts)`, restricted to the calendar date it
produces: the UTC civil date of `floor(ts / 86400)` days after the epoch.
`Option.none` models the `OverflowError`/`ValueError` raised when the result
falls outside `datetime`'s year range 1..9999. -/
def utcfromtimestamp (q : ℚ) : Option (Int × Nat × Nat) :=
  let days := Rat.floor (ratDivPos q 86400)
  let ymd := civilFromDays days
  if 1 ≤ ymd.1 ∧ ymd.1 ≤ 9999 then some ymd else Option.none

/-- Zero-padded two-digit field of `strftime("%m")` / `strftime("%d")`. -/
def pad2 (n : Nat) : String := if n < 10 then "0" ++ toString n else toString n

/-- `ts.strftime("%Y-%m-%d")` (the year is 4 digits in the guarded range). -/
def fmtDate (y : Int) (m d : Nat) : String :=
  toString y ++ "-" ++ pad2 m ++ "-" ++ pad2 d

/-- The `try`-block of `_normalize` (src/main.py lines 50-60) for a numeric
value `q`: `some s` when an epoch interpretation is attempted, succeeds, and
passes the year sanity guard; `Option.none` when the guard fails, the
conversion raises (caught), or no interpretation is attempted (the explicit
`raise ValueError`). -/
def epochCase (q : ℚ) : Option String :=
  let ts :=
    if q > (1000000000000 : ℚ) then utcfromtimestamp (ratDivPos q 1000)
    else if q > (1000000000 : ℚ) then utcfromtimestamp q
    else Option.none
  match ts with
  | Option.none => Option.none
  | some ymd =>
    if 1900 ≤ ymd.1 ∧ ymd.1 ≤ 2100 then some (fmtDate ymd.1 ymd.2.1 ymd.2.2)
    else Option.none

/-- `_normalize` (src/main.py lines 45-62).  `.error` models an uncaught
exception: for `±inf` the epoch attempt fails inside the `try` (caught), but
the fallback `int(val)` on line 61 is outside the `try` and raises
`OverflowError`. -/
def _normalize : PyVal → Except String String
  | .none => pure ""
  | .nan => pure ""
  | .bool b =>
    match epochCase (if b then 1 else 0) with
    | some s => pure s
    | Option.none => pure (if b then "True" else "False")
  | .int n =>
    match epochCase (n : ℚ) with
    | some s => pure s
    | Option.none => pure (toString n)
  | .float q =>
    match epochCase q with
    | some s => pure s
    | Option.none => pure (toString (ratTrunc q))
  | .inf _ => throw "OverflowError"
  | .str s => pure (pyStrip s)
  | .list xs => pure (pyStrip (pyStr (.list xs)))
  | .dict kvs => pure (pyStrip (pyStr (.dict kvs)))

/-- `_is_match` (src/main.py lines 65-69).  The heterogeneous Python return
value (`""` or a bool) is a `PyVal`. -/
def _is_match (a b : PyVal) : Except String PyVal := do
  let na ← _normalize a
  let nb ← _normalize b
  pure (if na = "" ∧ nb = "" then .str "" else .bool (pyLower na == pyLower nb))

/-- `dict.get(key, default)` on an association list. -/
def dictGetD (kvs : List (String × PyVal)) (k : String) (d : PyVal) : PyVal :=
  (kvs.lookup k).getD d

/-- The first present alias of the `for option in key.split("|")` loop of
`_dig`: `found` starts as `""` and is set (with `break`) at the first alias
that is a key. -/
def firstPresent (kvs : List (String × PyVal)) : List String → PyVal
  | [] => .str ""
  | a :: rest =>
    if (kvs.lookup a).isSome then dictGetD kvs a (.str "")
    else firstPresent kvs rest

/-- `_dig` (src/main.py lines 72-87). -/
def _dig : PyVal → List String → PyVal
  | cur, [] => cur
  | cur, key :: rest =>
    match cur with
    | .dict kvs =>
      if hasPipe key then _dig (firstPresent kvs (pySplitPipe key)) rest
      else _dig (dictGetD kvs key (.str "")) rest
    | _ => .str ""

/-- The `MAPPING` table (src/main.py lines 24-39): CSV header → key path,
with `|`-separated alternative keys kept encoded as in the source. -/
def MAPPING : List (String × List String) :=
  [("Content Type", ["contentType"]),
   ("Document Type", ["contentType"]),
   ("Name", ["metaData", "providerName"]),
   ("Issuing Entity", ["metaData", "issuingAuthority|issuingEntity|issuer|issuingAgency|issuingOrganization"]),
   ("Issued Date", ["metaData", "issueDate|issuedDate|dateIssued|issuedOn"]),
   ("Expiration Date", ["metaData", "expirationDate|expireDate|expires|expDate"]),
   ("State", ["metaData", "state|stateCode|issuingState|jurisdiction|stateAbbreviation"]),
   ("result_id", ["metaData", "resultsDate"]),
   ("Education and Training Sub-Category", ["metaData", "subCategory"]),
   ("Life Support and Misc. Certifications Sub-Category", ["metaData", "subCategory"]),
   ("Board Certification Sub-Category", ["metaData", "subCategory"]),
   ("DEA Registration Sub-Category", ["metaData", "subCategory"]),
   ("Military Service Sub-Category", ["metaData", "subCategory"])]

/-- Hexadecimal-lowercase character class `[a-f0-9]` of the UUID pattern. -/
def isHexLower (c : Char) : Bool :=
  (decide ('a' ≤ c) && decide (c ≤ 'f')) || (decide ('0' ≤ c) && decide (c ≤ '9'))

/-- Consume exactly `n` `[a-f0-9]` characters. -/
def dropHex : Nat → List Char → Option (List Char)
  | 0, l => some l
  | _ + 1, [] => Option.none
  | n + 1, c :: l => if isHexLower c then dropHex n l else Option.none

/-- Consume one `-`. -/
def dropDash : List Char → Option (List Char)
  | c :: l => if c = '-' then some l else Option.none
  | [] => Option.none

/-- Consume `-[a-f0-9]{8}-[a-f0-9]{4}-[a-f0-9]{4}-[a-f0-9]{4}-[a-f0-9]{12}`
(37 characters), returning the remainder. -/
def matchUuidCore (l : List Char) : Option (List Char) :=
  (((((((((dropDash l).bind (dropHex 8)).bind dropDash).bind (dropHex 4)).bind
    dropDash).bind (dropHex 4)).bind dropDash).bind (dropHex 4)).bind dropDash).bind
    (dropHex 12)

/-- The tail allowed after the 37 UUID-suffix characters: end of string
(empty replacement) or the greedy optional extension group `(\.[^.]+)?`
followed by `$` (the captured extension is the replacement `\1`). -/
def extCheckRest : List Char → Option (List Char)
  | [] => some []
  | c :: e => if c = '.' ∧ e ≠ [] ∧ ¬e.contains '.' then some (c :: e) else Option.none

/-- Match the full anchored pattern
`-hex8-hex4-hex4-hex4-hex12(\.[^.]+)?$` at this position, returning the
replacement `\1` (the captured extension, or empty). -/
def matchPatAt (l : List Char) : Option (List Char) :=
  (matchUuidCore l).bind extCheckRest

/-- `re.sub(uuid_pattern, r"\1", ·)` on the character list: replace the
leftmost (and, the pattern being `$`-anchored, only) match. -/
def uuidSubAux : List Char → List Char
  | [] => []
  | c :: l =>
    match matchPatAt (c :: l) with
    | some repl => repl
    | Option.none => c :: uuidSubAux l

/-- Is the anchored UUID-suffix pattern present anywhere (i.e. would `re.sub`
rewrite the string)? -/
def hasUuidMatch : List Char → Bool
  | [] => false
  | c :: l => (matchPatAt (c :: l)).isSome || hasUuidMatch l

/-- `hasUuidMatch` on a string. -/
def hasUuidSuffix (s : String) : Bool := hasUuidMatch s.data

/-- `extract_base_filename` (src/main.py lines 118-125). -/
def extract_base_filename (s : String) : String :=
  if s = "" then "" else String.mk (uuidSubAux s.data)

/-- `normalize_key` (src/main.py lines 127-128). -/
def normalize_key (v : PyVal) : String :=
  match v with
  | .none => ""
  | v => pyLower (pyStrip (pyStr v))

/-- A Python dict write `d[k] = v` on an association list: replace the value
at the first occurrence of `k` in place, append `(k, v)` if `k` is absent
(CPython insertion-order semantics). -/
def dictInsert : List (String × PyVal) → String → PyVal → List (String × PyVal)
  | [], k, v => [(k, v)]
  | p :: t, k, v => if p.1 == k then (k, v) :: t else p :: dictInsert t k v

/-- Lines 111-116 of `build_comparison`: the `truth_items` value. -/
def getTruthItems : PyVal → PyVal
  | .dict kvs => dictGetD kvs "testData" (.list [])
  | .list xs => .list xs
  | _ => .list []

/-- Python `for item in v`: the sequence iterated over, or a `TypeError` for a
non-iterable value (a string iterates its characters, a dict its keys). -/
def pyIter : PyVal → Except String (List PyVal)
  | .list xs => pure xs
  | .str s => pure (s.data.map fun c => .str (String.mk [c]))
  | .dict kvs => pure (kvs.map fun kv => PyVal.str kv.1)
  | _ => throw "TypeError"

/-- Python `v.get(key)` (default `None`): an `AttributeError` when `v` is not
a dict (e.g. a decoded `METADATA` string that is valid JSON but not an
object). -/
def pyGet (v : PyVal) (k : String) : Except String PyVal :=
  match v with
  | .dict kvs => pure (dictGetD kvs k .none)
  | _ => throw "AttributeError"

/-- Lines 134-146 of `build_comparison`: the resolved metadata object of one
truth item, `Option.none` meaning `continue` (undecodable JSON string, or a
`METADATA` that is neither a string nor a dict). -/
def metadataOf (dec : String → Option PyVal) (ikvs : List (String × PyVal)) : Option PyVal :=
  match dictGetD ikvs "METADATA" .none with
  | .str s => dec s
  | .dict kvs => some (.dict kvs)
  | _ => Option.none

/-- The pair of lookup tables of `build_comparison`: `truth_lookup` (file-name
identity keys) and `truth_by_name` (provider-name side table). -/
abbrev IdxState := List (String × PyVal) × List (String × PyVal)

/-- One file-name insert block of `build_comparison` (lines 162-164 and
167-169 are two instances of this shape): when the identity value is truthy,
insert the record under the verbatim name and under its canonicalized base
name; a truthy non-string reaches `re.sub` and raises `TypeError` (the
verbatim raw-key insert is unobservable because the exception aborts the
call). -/
def insertNamePair (tl : List (String × PyVal)) (name R : PyVal) :
    Except String (List (String × PyVal)) :=
  if pyTruthy name then
    match name with
    | .str s => pure (dictInsert (dictInsert tl s R) (extract_base_filename s) R)
    | _ => throw "TypeError"
  else pure tl

/-- `original_file_name` of a truth item (line 148), given its metadata
object's entries. -/
def origNameOf (mkvs : List (String × PyVal)) : PyVal :=
  pyOr (dictGetD mkvs "fileName" .none) (dictGetD mkvs "filename" .none)

/-- `new_file_name` of a truth item (line 149). -/
def newNameOf (ikvs mkvs : List (String × PyVal)) : PyVal :=
  pyOr (dictGetD ikvs "NEW_FILE_NAME" .none) (dictGetD mkvs "newFileName" .none)

/-- `provider_name` of a truth item (line 150). -/
def provNameOf (mkvs : List (String × PyVal)) : PyVal :=
  dictGetD mkvs "providerName" .none

/-- The `truth_record` dict built on lines 155-159. -/
def recordOf (ikvs mkvs : List (String × PyVal)) : PyVal :=
  .dict [("fileName", pyOr (pyOr (origNameOf mkvs) (newNameOf ikvs mkvs)) (.str "")),
         ("contentType", dictGetD ikvs "NAME" .none),
         ("metaData", .dict mkvs)]

/-- One iteration of the `for item in truth_items` loop of `build_comparison`
(src/main.py lines 133-173).  A truthy non-string identity value reaches
`re.sub` inside `extract_base_filename` and raises `TypeError`; the raw-key
insert on the same lines is unobservable in that case because the exception
aborts the whole call. -/
def processItem (dec : String → Option PyVal) (st : IdxState) (item : PyVal) :
    Except String IdxState := do
  let ikvs ← match item with
    | .dict kvs => pure kvs
    | _ => throw "AttributeError"
  match metadataOf dec ikvs with
  | Option.none => pure st
  | some metadata_obj => do
    let f1 ← pyGet metadata_obj "fileName"
    let f2 ← pyGet metadata_obj "filename"
    let original_file_name := pyOr f1 f2
    let n2 ← pyGet metadata_obj "newFileName"
    let new_file_name := pyOr (dictGetD ikvs "NEW_FILE_NAME" .none) n2
    let provider_name ← pyGet metadata_obj "providerName"
    if pyTruthy original_file_name = false ∧ pyTruthy new_file_name = false ∧
        pyTruthy provider_name = false then
      pure st
    else do
      let truth_record : PyVal := .dict
        [("fileName", pyOr (pyOr original_file_name new_file_name) (.str "")),
         ("contentType", dictGetD ikvs "NAME" .none),
         ("metaData", metadata_obj)]
      let tl ← insertNamePair st.1 new_file_name truth_record
      let tl2 ← insertNamePair tl original_file_name truth_record
      let tn := if pyTruthy provider_name then
          dictInsert st.2 (normalize_key provider_name) truth_record
        else st.2
      pure (tl2, tn)

/-- `row.get(header, "")` on an extract row (the CSV is ingested `dtype=str`,
so cells are strings; an absent column is the empty string). -/
def rowGet (row : List (String × String)) (k : String) : String :=
  (row.lookup k).getD ""

/-- Lines 177-189 of `build_comparison`: the ordered fallback chain resolving
one extract row to a truth record. -/
def resolve_truth (tl tn : List (String × PyVal)) (row : List (String × String)) :
    Option PyVal :=
  let file_name := rowGet row "Assets"
  let base_file_name := extract_base_filename file_name
  match tl.lookup file_name with
  | some r => some r
  | Option.none =>
    match tl.lookup base_file_name with
    | some r => some r
    | Option.none => tn.lookup (normalize_key (.str (rowGet row "Name")))

/-- One iteration of the `for header, path in MAPPING.items()` loop (lines
192-199): dig the truth value (empty without a truth record), read the
extract cell, store the normalized pair, the verdict, and the spacer write. -/
def recStep (truth : Option PyVal) (row : List (String × String))
    (acc : List (String × PyVal)) (hp : String × List String) :
    Except String (List (String × PyVal)) := do
  let truth_val := match truth with
    | some t => _dig t hp.2
    | Option.none => PyVal.str ""
  let extract_val := rowGet row hp.1
  let tn ← _normalize truth_val
  let en ← _normalize (.str extract_val)
  let mv ← _is_match truth_val (.str extract_val)
  pure (dictInsert
         (dictInsert
           (dictInsert
             (dictInsert acc ("Truth: " ++ hp.1) (.str tn))
             ("Extract: " ++ hp.1) (.str en))
           (hp.1 ++ " Match?") mv)
         "  " (.str ""))

/-- Lines 191-201 of `build_comparison`: assemble the output record (a dict)
for one extract row from its resolved truth record. -/
def buildRec (truth : Option PyVal) (row : List (String × String)) :
    Except String (List (String × PyVal)) :=
  MAPPING.foldlM (recStep truth row) [("File Name", .str (rowGet row "Assets"))]

/-- `build_comparison` (src/main.py lines 105-203).  The output DataFrame is
the list of its row dicts; `dec` stands for `json.loads`. -/
def build_comparison (dec : String → Option PyVal)
    (extract_csv : List (List (String × String))) (truth_json : PyVal) :
    Except String (List (List (String × PyVal))) := do
  let items ← pyIter (getTruthItems truth_json)
  let st ← items.foldlM (processItem dec) ([], [])
  extract_csv.mapM fun row => buildRec (resolve_truth st.1 st.2 row) row

/-- Is the value a Python dict? (`isinstance(v, dict)`). -/
def isDictV : PyVal → Bool
  | .dict _ => true
  | _ => false

/-- Is the value a Python list? (`isinstance(v, list)`). -/
def isListV : PyVal → Bool
  | .list _ => true
  | _ => false

/-- The numeric fallback of `_normalize` as the specification words it:
`str(int(val))`-with-`.0`-dropping only for *whole-valued* floats, the plain
numeric string otherwise. -/
def claimedFallback (q : ℚ) (isFloat : Bool) : String :=
  if isFloat then (if q.den = 1 then toString q.num else floatRepr q)
  else toString q.num

/-- Modelled from the spec (§4.1, claim C2 wording): epoch interpretation is
chosen by the *magnitude* of the value (`|q| > 1e12` milliseconds,
else `|q| > 1e9` seconds), with the year-guarded date format and the
whole-floats-only fallback. -/
def claimedNum (q : ℚ) (isFloat : Bool) : String :=
  let mag := if q < 0 then -q else q
  let ts :=
    if mag > (1000000000000 : ℚ) then some (ratDivPos q 1000)
    else if mag > (1000000000 : ℚ) then some q
    else Option.none
  match ts with
  | some t =>
    match utcfromtimestamp t with
    | some ymd =>
      if 1900 ≤ ymd.1 ∧ ymd.1 ≤ 2100 then fmtDate ymd.1 ymd.2.1 ymd.2.2
      else claimedFallback q isFloat
    | Option.none => claimedFallback q isFloat
  | Option.none => claimedFallback q isFloat

/-- The amended reading of claim C2: thresholds compare the *signed* value
(`val > 1e12`, `val > 1e9`, as in the source), and the numeric fallback is
`str(int(val))` for *every* float (truncation toward zero) and `str(val)`
for ints. -/
def amendedNum (q : ℚ) (isFloat : Bool) : String :=
  let ts :=
    if q > (1000000000000 : ℚ) then some (ratDivPos q 1000)
    else if q > (1000000000 : ℚ) then some q
    else Option.none
  let fb := if isFloat then toString (ratTrunc q) else toString q.num
  match ts with
  | some t =>
    match utcfromtimestamp t with
    | some ymd =>
      if 1900 ≤ ymd.1 ∧ ymd.1 ≤ 2100 then fmtDate ymd.1 ymd.2.1 ymd.2.2 else fb
    | Option.none => fb
  | Option.none => fb

/-- The `Match?` cell of an output row whose truth record is `None`:
`_is_match("", extract_val)` (used to state what `buildRec` stores). -/
def mval (ev : String) : PyVal :=
  if pyStrip ev = "" then .str "" else .bool ("" == pyLower (pyStrip ev))

/-- The output record of an extract row that matched no truth record
(`buildRec` never throws in that case, so this is total). -/
def buildRecNone (row : List (String × String)) : List (String × PyVal) :=
  (buildRec Option.none row).toOption.getD []

/-! ## Helper lemmas -/

@[simp]
theorem ok_bind {α β : Type} (a : α) (f : α → Except String β) :
    (Except.ok a >>= f) = f a := rfl

@[simp]
theorem error_bind {α β : Type} (e : String) (f : α → Except String β) :
    ((Except.error e : Except String α) >>= f) = Except.error e := rfl

@[simp]
theorem pure_eq_ok {α : Type} (a : α) : (pure a : Except String α) = Except.ok a := rfl

@[simp]
theorem pyStrip_empty : pyStrip "" = "" := rfl

@[simp]
theorem pyLower_empty : pyLower "" = "" := rfl

theorem pyLower_eq_empty_iff (s : String) : pyLower s = "" ↔ s = "" := by
  constructor
  · intro h
    have hd : (s.data.map Char.toLower) = ([] : List Char) := by
      have := congrArg String.data h
      simpa [pyLower] using this
    have : s.data = [] := List.map_eq_nil_iff.mp hd
    cases s
    simp_all
  · intro h
    subst h
    rfl

theorem lookup_dictInsert (m : List (String × PyVal)) (k x : String) (v : PyVal) :
    (dictInsert m k v).lookup x = if x = k then some v else m.lookup x := by
  induction m with
  | nil =>
    by_cases h : x = k
    · simp [dictInsert, List.lookup, h]
    · simp [dictInsert, List.lookup, h, beq_eq_false_iff_ne.mpr h]
  | cons p t ih =>
    obtain ⟨pk, pv⟩ := p
    by_cases hp : pk = k
    · have hbeq : (pk == k) = true := beq_iff_eq.mpr hp
      simp only [dictInsert, hbeq, if_true]
      by_cases hx : x = k
      · simp [List.lookup, hx, hp]
      · have hxp : x ≠ pk := fun hh => hx (hh.trans hp)
        simp [List.lookup, beq_eq_false_iff_ne.mpr hx, beq_eq_false_iff_ne.mpr hxp, hx]
    · have hbeq : (pk == k) = false := beq_eq_false_iff_ne.mpr hp
      simp only [dictInsert, hbeq, if_false]
      by_cases hx : x = pk
      · have hxk : x ≠ k := fun hh => hp (hx ▸ hh)
        simp [List.lookup, beq_iff_eq.mpr hx, hxk]
      · simp [List.lookup, beq_eq_false_iff_ne.mpr hx, ih]

theorem firstPresent_found (kvs : List (String × PyVal)) (pre : List String)
    (a : String) (post : List String) (v : PyVal)
    (hpre : ∀ b ∈ pre, kvs.lookup b = Option.none) (ha : kvs.lookup a = some v) :
    firstPresent kvs (pre ++ a :: post) = v := by
  induction pre with
  | nil => simp [firstPresent, ha, dictGetD]
  | cons b bs ih =>
    have hb : kvs.lookup b = Option.none := hpre b (by simp)
    simp only [List.cons_append, firstPresent, hb, Option.isSome_none, Bool.false_eq_true,
      if_false]
    exact ih fun x hx => hpre x (by simp [hx])

theorem firstPresent_all_absent (kvs : List (String × PyVal)) (l : List String)
    (h : ∀ b ∈ l, kvs.lookup b = Option.none) :
    firstPresent kvs l = .str "" := by
  induction l with
  | nil => rfl
  | cons b bs ih =>
    have hb : kvs.lookup b = Option.none := h b (by simp)
    simp only [firstPresent, hb, Option.isSome_none, Bool.false_eq_true, if_false]
    exact ih fun x hx => h x (by simp [hx])

theorem dig_empty_str (rest : List String) : _dig (.str "") rest = .str "" := by
  cases rest <;> rfl

/-! ## Claims -/

theorem amendedNum_eq (q : ℚ) (isFloat : Bool) :
    amendedNum q isFloat =
      (match epochCase q with
       | some s => s
       | Option.none => if isFloat then toString (ratTrunc q) else toString q.num) := by
  unfold amendedNum epochCase
  by_cases h1 : q > (1000000000000 : ℚ)
  · simp only [h1, if_true]
    cases utcfromtimestamp (ratDivPos q 1000) with
    | none => simp
    | some ymd => by_cases hg : 1900 ≤ ymd.1 ∧ ymd.1 ≤ 2100 <;> simp [hg]
  · by_cases h2 : q > (1000000000 : ℚ)
    · simp only [h1, if_false, h2, if_true]
      cases utcfromtimestamp q with
      | none => simp
      | some ymd => by_cases hg : 1900 ≤ ymd.1 ∧ ymd.1 ≤ 2100 <;> simp [hg]
    · simp [h1, h2]

/-- C2 (amended): epoch interpretation compares the *signed* value against the
thresholds (`val > 1e12` milliseconds, else `val > 1e9` seconds), formats the
UTC date only when the year lies in [1900, 2100], and otherwise falls back to
`str(int(val))` for every float (truncation toward zero) and `str(val)` for
ints; `normalize(1700000000) = "2023-11-14"`,
`normalize(1700000000000) = "2023-11-14"`, `normalize(42) = "42"`. -/
theorem C2_amended_normalize :
    (∀ n : ℤ, _normalize (.int n) = .ok (amendedNum (n : ℚ) false))
    ∧ (∀ q : ℚ, _normalize (.float q) = .ok (amendedNum q true))
    ∧ _normalize (.int 1700000000) = .ok "2023-11-14"
    ∧ _normalize (.int 1700000000000) = .ok "2023-11-14"
    ∧ _normalize (.int 42) = .ok "42" := by
  refine ⟨?_, ?_, rfl, rfl, rfl⟩
  · intro n
    rw [amendedNum_eq]
    simp only [_normalize, Rat.num_intCast]
    cases epochCase ((n : ℤ) : ℚ) <;> simp
  · intro q
    rw [amendedNum_eq]
    simp only [_normalize]
    cases epochCase q <;> simp

/-- C2 (counterexample to the claim as stated): the code compares the signed
value, not the magnitude — `_normalize(-2*10^12)` is the plain integer string
while the claimed magnitude-based rule yields the date `"1906-08-16"` — and
the float fallback truncates every float, so `_normalize(3.7) = "3"` while the
claimed rule keeps the plain numeric string `"3.7"`. -/
theorem C2_counterexample :
    (_normalize (.float (Rat.divInt 37 10)) = .ok "3"
      ∧ claimedNum (Rat.divInt 37 10) true = "3.7")
    ∧ (_normalize (.int (-2000000000000)) = .ok "-2000000000000"
      ∧ claimedNum (Rat.divInt (-2000000000000) 1) false = "1906-08-16") :=
  ⟨⟨rfl, rfl⟩, rfl, rfl⟩

/-- C4: for every pair of values, the per-field verdict is the empty string
iff both normalized values are empty; otherwise it is the boolean equality of
the case-folded normalized strings; `is_match("", "") = ""`,
`is_match("A", "a") = True`, `is_match("A", "B") = False`. -/
theorem C4_verdict_tristate :
    (∀ a b na nb, _normalize a = .ok na → _normalize b = .ok nb →
      ((_is_match a b = .ok (.str "") ↔ na = "" ∧ nb = "")
        ∧ (¬(na = "" ∧ nb = "") → _is_match a b = .ok (.bool (pyLower na == pyLower nb)))))
    ∧ _is_match (.str "") (.str "") = .ok (.str "")
    ∧ _is_match (.str "A") (.str "a") = .ok (.bool true)
    ∧ _is_match (.str "A") (.str "B") = .ok (.bool false) := by
  refine ⟨?_, rfl, rfl, rfl⟩
  intro a b na nb ha hb
  unfold _is_match
  rw [ha, hb]
  by_cases h : na = "" ∧ nb = ""
  · simp [h]
  · simp [h]

/-- Witness for C4 at `a = "A"`, `b = "a"`. -/
theorem C4_verdict_tristate_witness :
    _is_match (.str "A") (.str "a") = .ok (.bool (pyLower "A" == pyLower "a")) :=
  ((C4_verdict_tristate.1 (.str "A") (.str "a") "A" "a" rfl rfl).2 (by simp))

/-- C3: the match resolver tries the strategies in a fixed order with first
success winning: exact `Assets` key, then canonicalized `Assets` key, then the
case-folded trimmed `Name` against the provider side table, else no record. -/
theorem C3_match_resolver_order (tl tn : List (String × PyVal))
    (row : List (String × String)) :
    (∀ r, tl.lookup (rowGet row "Assets") = some r → resolve_truth tl tn row = some r)
    ∧ (tl.lookup (rowGet row "Assets") = Option.none →
        ∀ r, tl.lookup (extract_base_filename (rowGet row "Assets")) = some r →
          resolve_truth tl tn row = some r)
    ∧ (tl.lookup (rowGet row "Assets") = Option.none →
        tl.lookup (extract_base_filename (rowGet row "Assets")) = Option.none →
        resolve_truth tl tn row = tn.lookup (normalize_key (.str (rowGet row "Name")))) := by
  refine ⟨?_, ?_, ?_⟩
  · intro r h
    simp [resolve_truth, h]
  · intro h1 r h2
    simp [resolve_truth, h1, h2]
  · intro h1 h2
    simp [resolve_truth, h1, h2]

/-- Witness for C3: strategy 2 fires when the exact key misses. -/
theorem C3_match_resolver_order_witness :
    resolve_truth [("report.pdf", .str "rec")] []
      [("Assets", "report-123e4567-e89b-12d3-a456-426614174000.pdf")] = some (.str "rec") :=
  (C3_match_resolver_order [("report.pdf", .str "rec")] []
    [("Assets", "report-123e4567-e89b-12d3-a456-426614174000.pdf")]).2.1 rfl (.str "rec") rfl

/-- C6 (code bug): `_normalize(float("inf"))` raises `OverflowError` — the
`int(val)` fallback on line 61 sits outside the `try`/`except` — while NaN is
caught and finite floats whose epoch conversion fails fall back to the plain
numeric string. -/
theorem C6_normalize_inf_overflow :
    _normalize (.inf false) = .error "OverflowError"
    ∧ _normalize (.inf true) = .error "OverflowError"
    ∧ _normalize .nan = .ok ""
    ∧ _normalize (.float (Rat.divInt 200000000000000000000 1)) = .ok "200000000000000000000" :=
  ⟨rfl, rfl, rfl, rfl⟩

/-- C7: the path resolver advances to the first alias that is *present* as a
key (presence, not truthiness); if no alias is present the cursor becomes the
empty string and every subsequent selector resolves to the empty string; a
non-mapping cursor yields the empty string. -/
theorem C7_path_resolver :
    (∀ kvs key rest pre a post v, hasPipe key = true →
        pySplitPipe key = pre ++ a :: post →
        (∀ b ∈ pre, kvs.lookup b = Option.none) →
        kvs.lookup a = some v →
        _dig (.dict kvs) (key :: rest) = _dig v rest)
    ∧ (∀ kvs key rest, hasPipe key = true →
        (∀ b ∈ pySplitPipe key, kvs.lookup b = Option.none) →
        _dig (.dict kvs) (key :: rest) = .str "")
    ∧ (∀ rest, _dig (.str "") rest = .str "")
    ∧ (∀ v rest, isDictV v = false → rest ≠ [] → _dig v rest = .str "") := by
  refine ⟨?_, ?_, dig_empty_str, ?_⟩
  · intro kvs key rest pre a post v hp hsplit hpre ha
    simp only [_dig, hp, if_true, hsplit]
    rw [firstPresent_found kvs pre a post v hpre ha]
  · intro kvs key rest hp habs
    simp only [_dig, hp, if_true]
    rw [firstPresent_all_absent kvs _ habs]
    exact dig_empty_str rest
  · intro v rest hv hrest
    cases rest with
    | nil => exact absurd rfl hrest
    | cons k l => cases v <;> simp_all [_dig, isDictV]

/-- Witness for C7: the second alias of `"a|b"` wins when the first is
absent, even though the selected value is falsy-typed (an int). -/
theorem C7_path_resolver_witness :
    _dig (.dict [("b", .int 5)]) ["a|b"] = .int 5 :=
  C7_path_resolver.1 [("b", .int 5)] "a|b" [] ["a"] "b" [] (.int 5) rfl rfl
    (by intro b hb; simp at hb; subst hb; rfl) rfl

example : pyStrip "  x " = "x" := by decide
example : _normalize (.int 42) = .ok "42" := rfl
example : _normalize (.int 1700000000) = .ok "2023-11-14" := rfl
example : extract_base_filename "report-123e4567-e89b-12d3-a456-426614174000.pdf" = "report.pdf" := by decide
example : civilFromDays 0 = (1970, 1, 1) := by decide
example : civilFromDays 19675 = (2023, 11, 14) := by decide


theorem dropHex_length (n : Nat) : ∀ l r : List Char, dropHex n l = some r →
    l.length = r.length + n := by
  induction n with
  | zero =>
    intro l r h
    simp only [dropHex] at h
    injection h with h
    simp [h]
  | succ n ih =>
    intro l r h
    cases l with
    | nil => simp [dropHex] at h
    | cons c l =>
      simp only [dropHex] at h
      by_cases hc : isHexLower c = true
      · rw [if_pos hc] at h
        have := ih l r h
        simp only [List.length_cons]
        omega
      · rw [if_neg hc] at h
        exact absurd h (by simp)

theorem dropDash_length (l r : List Char) (h : dropDash l = some r) :
    l.length = r.length + 1 := by
  cases l with
  | nil => simp [dropDash] at h
  | cons c l =>
    simp only [dropDash] at h
    by_cases hc : c = '-'
    · rw [if_pos hc] at h
      injection h with h
      simp [h]
    · rw [if_neg hc] at h
      exact absurd h (by simp)

theorem matchUuidCore_length (l r : List Char) (h : matchUuidCore l = some r) :
    l.length = r.length + 37 := by
  simp only [matchUuidCore, Option.bind_eq_some] at h
  obtain ⟨a9, h9c, h10⟩ := h
  obtain ⟨a8, h8c, h9⟩ := h9c
  obtain ⟨a7, h7c, h8⟩ := h8c
  obtain ⟨a6, h6c, h7⟩ := h7c
  obtain ⟨a5, h5c, h6⟩ := h6c
  obtain ⟨a4, h4c, h5⟩ := h5c
  obtain ⟨a3, h3c, h4⟩ := h4c
  obtain ⟨a2, h2c, h3⟩ := h3c
  obtain ⟨a1, h1, h2⟩ := h2c
  have e1 := dropDash_length _ _ h1
  have e2 := dropHex_length 8 _ _ h2
  have e3 := dropDash_length _ _ h3
  have e4 := dropHex_length 4 _ _ h4
  have e5 := dropDash_length _ _ h5
  have e6 := dropHex_length 4 _ _ h6
  have e7 := dropDash_length _ _ h7
  have e8 := dropHex_length 4 _ _ h8
  have e9 := dropDash_length _ _ h9
  have e10 := dropHex_length 12 _ _ h10
  omega

theorem matchPatAt_length (l r : List Char) (h : matchPatAt l = some r) :
    l.length = r.length + 37 := by
  simp only [matchPatAt, Option.bind_eq_some] at h
  obtain ⟨rest, hcore, hrest⟩ := h
  have hlen := matchUuidCore_length l rest hcore
  cases rest with
  | nil =>
    simp only [extCheckRest] at hrest
    injection hrest with hrest
    rw [← hrest]
    simpa using hlen
  | cons c e =>
    simp only [extCheckRest] at hrest
    by_cases hc : c = '.' ∧ e ≠ [] ∧ ¬(e.contains '.' = true)
    · rw [if_pos hc] at hrest
      injection hrest with hrest
      rw [← hrest]
      exact hlen
    · rw [if_neg hc] at hrest
      exact absurd hrest (by simp)

theorem hasUuidMatch_false_sub (l : List Char) (h : hasUuidMatch l = false) :
    uuidSubAux l = l := by
  induction l with
  | nil => rfl
  | cons c t ih =>
    simp only [hasUuidMatch, Bool.or_eq_false_iff] at h
    obtain ⟨h1, h2⟩ := h
    have hnone : matchPatAt (c :: t) = Option.none := Option.not_isSome_iff_eq_none.mp (by simp [h1])
    simp only [uuidSubAux, hnone]
    rw [ih h2]

theorem hasUuidMatch_true_length (l : List Char) (h : hasUuidMatch l = true) :
    (uuidSubAux l).length + 37 = l.length := by
  induction l with
  | nil => simp [hasUuidMatch] at h
  | cons c t ih =>
    cases hm : matchPatAt (c :: t) with
    | some r =>
      have := matchPatAt_length (c :: t) r hm
      simp only [uuidSubAux, hm]
      simp only [List.length_cons] at this ⊢
      omega
    | none =>
      simp only [hasUuidMatch, hm, Option.isSome_none, Bool.false_or] at h
      simp only [uuidSubAux, hm]
      have := ih h
      simp only [List.length_cons]
      omega

theorem string_mk_inj (a b : List Char) : String.mk a = String.mk b ↔ a = b :=
  ⟨fun h => by injection h, fun h => congrArg _ h⟩

theorem canon_fixpoint_iff (t : String) :
    extract_base_filename t = t ↔ hasUuidSuffix t = false := by
  obtain ⟨data⟩ := t
  by_cases hd : String.mk data = ""
  · have hnil : data = [] := by
      have := congrArg String.data hd
      simpa using this
    subst hnil
    simp [extract_base_filename, hasUuidSuffix, hasUuidMatch]
  · simp only [extract_base_filename, hd, if_false, hasUuidSuffix]
    rw [string_mk_inj]
    constructor
    · intro h
      cases hmm : hasUuidMatch data with
      | false => rfl
      | true =>
        have hlen := hasUuidMatch_true_length data hmm
        have := congrArg List.length h
        omega
    · intro h
      exact hasUuidMatch_false_sub data h

/-- C5 (counterexample to idempotence as stated): a file name carrying two
stacked UUID suffixes is stripped once per application, so a second
application strips again. -/
theorem C5_counterexample :
    extract_base_filename (extract_base_filename
      "a-11111111-2222-3333-4444-555555555555-aaaaaaaa-bbbb-cccc-dddd-eeeeeeeeeeee.pdf")
    ≠ extract_base_filename
      "a-11111111-2222-3333-4444-555555555555-aaaaaaaa-bbbb-cccc-dddd-eeeeeeeeeeee.pdf" := by
  decide

/-- C5 (amended): one application strips at most one trailing UUID suffix, so
canonicalization is idempotent at `x` exactly when `canonicalize(x)` no longer
ends in the UUID-suffix pattern (in particular for every input whose canonical
form carries at most one suffix). -/
theorem C5_amended_idempotent (x : String) :
    extract_base_filename (extract_base_filename x) = extract_base_filename x
    ↔ hasUuidSuffix (extract_base_filename x) = false :=
  canon_fixpoint_iff (extract_base_filename x)

/-- C1 (code bug): the source executes `rec["  "] = ""` inside the field loop
intending a spacer after every field group (the file header even announces
"spacer columns"), but a dict key is unique, so the output row has exactly
one spacer column, sitting after the first field's trio — 41 columns instead
of the claimed 53. -/
theorem C1_single_spacer_column :
    Except.map (fun out => out.map fun r => r.map Prod.fst)
      (build_comparison (fun _ => Option.none) [[("Assets", "a.pdf")]] (.list []))
    = .ok [["File Name",
        "Truth: Content Type", "Extract: Content Type", "Content Type Match?", "  ",
        "Truth: Document Type", "Extract: Document Type", "Document Type Match?",
        "Truth: Name", "Extract: Name", "Name Match?",
        "Truth: Issuing Entity", "Extract: Issuing Entity", "Issuing Entity Match?",
        "Truth: Issued Date", "Extract: Issued Date", "Issued Date Match?",
        "Truth: Expiration Date", "Extract: Expiration Date", "Expiration Date Match?",
        "Truth: State", "Extract: State", "State Match?",
        "Truth: result_id", "Extract: result_id", "result_id Match?",
        "Truth: Education and Training Sub-Category",
        "Extract: Education and Training Sub-Category",
        "Education and Training Sub-Category Match?",
        "Truth: Life Support and Misc. Certifications Sub-Category",
        "Extract: Life Support and Misc. Certifications Sub-Category",
        "Life Support and Misc. Certifications Sub-Category Match?",
        "Truth: Board Certification Sub-Category",
        "Extract: Board Certification Sub-Category",
        "Board Certification Sub-Category Match?",
        "Truth: DEA Registration Sub-Category",
        "Extract: DEA Registration Sub-Category",
        "DEA Registration Sub-Category Match?",
        "Truth: Military Service Sub-Category",
        "Extract: Military Service Sub-Category",
        "Military Service Sub-Category Match?"]] := by
  rfl

theorem processItem_skip (dec : String → Option PyVal) (st : IdxState)
    (ikvs : List (String × PyVal)) (h : metadataOf dec ikvs = Option.none) :
    processItem dec st (.dict ikvs) = .ok st := by
  simp [processItem, h]

theorem foldlM_ok {α β : Type} (step : β → α → Except String β)
    (h : ∀ acc x, ∃ r, step acc x = .ok r) :
    ∀ (l : List α) (acc : β), ∃ out, List.foldlM step acc l = .ok out := by
  intro l
  induction l with
  | nil => intro acc; exact ⟨acc, rfl⟩
  | cons x t ih =>
    intro acc
    obtain ⟨r, hr⟩ := h acc x
    obtain ⟨out, hout⟩ := ih r
    exact ⟨out, by simp [List.foldlM_cons, hr, hout]⟩

theorem recStep_none_eq (row : List (String × String)) (acc : List (String × PyVal))
    (hp : String × List String) :
    recStep Option.none row acc hp =
      .ok (dictInsert
            (dictInsert
              (dictInsert
                (dictInsert acc ("Truth: " ++ hp.1) (.str ""))
                ("Extract: " ++ hp.1) (.str (pyStrip (rowGet row hp.1))))
              (hp.1 ++ " Match?") (mval (rowGet row hp.1)))
            "  " (.str "")) := by
  simp [recStep, _normalize, _is_match, mval, pyStrip_empty, pyLower_empty]

theorem buildRec_none_ok (row : List (String × String)) :
    buildRec Option.none row = .ok (buildRecNone row) := by
  have h : ∃ out, buildRec Option.none row = .ok out := by
    unfold buildRec
    exact foldlM_ok _ (fun acc hp => ⟨_, recStep_none_eq row acc hp⟩) MAPPING _
  obtain ⟨out, hout⟩ := h
  rw [hout]
  unfold buildRecNone
  rw [hout]
  rfl

theorem mapM_loop_ok {α β : Type} (f : α → Except String β) (g : α → β)
    (hf : ∀ x, f x = .ok (g x)) :
    ∀ (l : List α) (acc : List β),
      List.mapM.loop f l acc = .ok (acc.reverse ++ l.map g) := by
  intro l
  induction l with
  | nil => intro acc; simp [List.mapM.loop]
  | cons x t ih =>
    intro acc
    simp only [List.mapM.loop, hf, ok_bind, ih, List.map_cons, List.reverse_cons,
      List.append_assoc, List.singleton_append]

theorem mapM_ok {α β : Type} (f : α → Except String β) (g : α → β)
    (hf : ∀ x, f x = .ok (g x)) (l : List α) : l.mapM f = .ok (l.map g) := by
  have := mapM_loop_ok f g hf l []
  simpa [List.mapM] using this

/-- C9: index construction degrades locally — a truth collection that is
neither a dict nor a list yields an empty index, so every row resolves to no
truth record and the whole comparison still succeeds; a truth item whose
`METADATA` string fails to decode is skipped while the remaining items are
processed exactly as without it. -/
theorem C9_degrades_locally :
    (∀ (dec : String → Option PyVal) (truth_json : PyVal)
        (rows : List (List (String × String))),
      isDictV truth_json = false → isListV truth_json = false →
      (∀ row, resolve_truth [] [] row = Option.none)
      ∧ build_comparison dec rows truth_json = .ok (rows.map buildRecNone))
    ∧ (∀ (dec : String → Option PyVal) (st : IdxState) (s : String)
        (ikvs : List (String × PyVal)) (pre post : List PyVal),
      dec s = Option.none → dictGetD ikvs "METADATA" .none = .str s →
      List.foldlM (processItem dec) st (pre ++ .dict ikvs :: post)
        = List.foldlM (processItem dec) st (pre ++ post)) := by
  constructor
  · intro dec truth_json rows hd hl
    have hitems : getTruthItems truth_json = .list [] := by
      cases truth_json <;> simp_all [getTruthItems, isDictV, isListV]
    constructor
    · intro row
      rfl
    · have hrec : ∀ row, buildRec (resolve_truth [] [] row) row = .ok (buildRecNone row) :=
        fun row => buildRec_none_ok row
      simp only [build_comparison, hitems]
      simpa using mapM_ok _ _ hrec rows
  · intro dec st s ikvs pre post hdec hmeta
    have hskip : ∀ st2, processItem dec st2 (.dict ikvs) = .ok st2 := by
      intro st2
      apply processItem_skip
      simp [metadataOf, hmeta, hdec]
    induction pre generalizing st with
    | nil => simp [List.foldlM_cons, hskip]
    | cons p ps ih =>
      simp only [List.cons_append, List.foldlM_cons]
      cases hp : processItem dec st p with
      | error e => rfl
      | ok st2 => simpa using ih st2

theorem bind_eq_ok {α β : Type} (x : Except String α) (f : α → Except String β) (b : β) :
    (x >>= f) = .ok b ↔ ∃ a, x = .ok a ∧ f a = .ok b := by
  cases x with
  | error e => simp
  | ok a => simp

theorem insertNamePair_preserve (tl tl2 : List (String × PyVal)) (name R : PyVal)
    (x : String) (hok : insertNamePair tl name R = .ok tl2)
    (hx : tl.lookup x = some R) : tl2.lookup x = some R := by
  unfold insertNamePair at hok
  by_cases ht : pyTruthy name = true
  · rw [if_pos ht] at hok
    cases name with
    | str s =>
      simp only [pure_eq_ok, Except.ok.injEq] at hok
      subst hok
      rw [lookup_dictInsert, lookup_dictInsert]
      by_cases h1 : x = extract_base_filename s
      · rw [if_pos h1]
      · rw [if_neg h1]
        by_cases h2 : x = s
        · rw [if_pos h2]
        · rw [if_neg h2]
          exact hx
    | none => exact Except.noConfusion hok
    | bool b => exact Except.noConfusion hok
    | int n => exact Except.noConfusion hok
    | float q => exact Except.noConfusion hok
    | nan => exact Except.noConfusion hok
    | inf neg => exact Except.noConfusion hok
    | list xs => exact Except.noConfusion hok
    | dict kvs => exact Except.noConfusion hok
  · rw [if_neg ht] at hok
    simp only [pure_eq_ok, Except.ok.injEq] at hok
    subst hok
    exact hx

theorem insertNamePair_hit (tl : List (String × PyVal)) (tl2 : List (String × PyVal))
    (R : PyVal) (s : String) (hs : s ≠ "")
    (hok : insertNamePair tl (.str s) R = .ok tl2) :
    tl2.lookup s = some R ∧ tl2.lookup (extract_base_filename s) = some R := by
  unfold insertNamePair at hok
  have ht : pyTruthy (.str s) = true := by simp [pyTruthy, hs]
  rw [if_pos ht] at hok
  simp only [pure_eq_ok, Except.ok.injEq] at hok
  subst hok
  constructor
  · rw [lookup_dictInsert]
    by_cases h1 : s = extract_base_filename s
    · rw [if_pos h1]
    · rw [if_neg h1, lookup_dictInsert, if_pos rfl]
  · rw [lookup_dictInsert, if_pos rfl]

/-- C8: a truth record is inserted under every derivable identity key —
`new_file_name` verbatim and canonicalized, `original_file_name` verbatim and
canonicalized, and (in the provider side table) the case-folded trimmed
provider name; concretely, an item with
`NEW_FILE_NAME = "report-123e4567-e89b-12d3-a456-426614174000.pdf"` is
reachable both by that exact string and by `"report.pdf"`. -/
theorem C8_identity_keys :
    (∀ (dec : String → Option PyVal) (st : IdxState)
        (ikvs mkvs tl2 tn2 : List (String × PyVal)) (s : String),
      metadataOf dec ikvs = some (.dict mkvs) →
      processItem dec st (.dict ikvs) = .ok (tl2, tn2) →
      newNameOf ikvs mkvs = .str s → s ≠ "" →
      tl2.lookup s = some (recordOf ikvs mkvs)
        ∧ tl2.lookup (extract_base_filename s) = some (recordOf ikvs mkvs))
    ∧ (∀ (dec : String → Option PyVal) (st : IdxState)
        (ikvs mkvs tl2 tn2 : List (String × PyVal)) (s : String),
      metadataOf dec ikvs = some (.dict mkvs) →
      processItem dec st (.dict ikvs) = .ok (tl2, tn2) →
      origNameOf mkvs = .str s → s ≠ "" →
      tl2.lookup s = some (recordOf ikvs mkvs)
        ∧ tl2.lookup (extract_base_filename s) = some (recordOf ikvs mkvs))
    ∧ (∀ (dec : String → Option PyVal) (st : IdxState)
        (ikvs mkvs tl2 tn2 : List (String × PyVal)),
      metadataOf dec ikvs = some (.dict mkvs) →
      processItem dec st (.dict ikvs) = .ok (tl2, tn2) →
      pyTruthy (provNameOf mkvs) = true →
      tn2.lookup (normalize_key (provNameOf mkvs)) = some (recordOf ikvs mkvs))
    ∧ (processItem (fun _ => Option.none) ([], [])
          (.dict [("NEW_FILE_NAME", .str "report-123e4567-e89b-12d3-a456-426614174000.pdf"),
                  ("METADATA", .dict [])])
        = .ok ([("report-123e4567-e89b-12d3-a456-426614174000.pdf",
                  recordOf [("NEW_FILE_NAME", .str "report-123e4567-e89b-12d3-a456-426614174000.pdf"),
                            ("METADATA", .dict [])] []),
                ("report.pdf",
                  recordOf [("NEW_FILE_NAME", .str "report-123e4567-e89b-12d3-a456-426614174000.pdf"),
                            ("METADATA", .dict [])] [])], [])) := by
  refine ⟨?_, ?_, ?_, rfl⟩
  · intro dec st ikvs mkvs tl2 tn2 s hmeta hok hs hsne
    simp only [processItem, hmeta, pyGet, ok_bind, pure_eq_ok] at hok
    simp only [recordOf, origNameOf, newNameOf, provNameOf] at hs ⊢
    rw [hs] at hok ⊢
    have htr : pyTruthy (PyVal.str s) = true := by simp [pyTruthy, hsne]
    rw [if_neg (fun hcon => by rw [htr] at hcon; simp at hcon)] at hok
    rw [bind_eq_ok] at hok
    obtain ⟨tl1, hstage1, hok⟩ := hok
    rw [bind_eq_ok] at hok
    obtain ⟨tlB, hstage2, hok⟩ := hok
    simp only [Except.ok.injEq, Prod.mk.injEq] at hok
    obtain ⟨rfl, rfl⟩ := hok
    have hhit := insertNamePair_hit _ _ _ _ hsne hstage1
    exact ⟨insertNamePair_preserve _ _ _ _ _ hstage2 hhit.1,
           insertNamePair_preserve _ _ _ _ _ hstage2 hhit.2⟩
  · intro dec st ikvs mkvs tl2 tn2 s hmeta hok hs hsne
    simp only [processItem, hmeta, pyGet, ok_bind, pure_eq_ok] at hok
    simp only [recordOf, origNameOf, newNameOf, provNameOf] at hs ⊢
    rw [hs] at hok ⊢
    have htr : pyTruthy (PyVal.str s) = true := by simp [pyTruthy, hsne]
    rw [if_neg (fun hcon => by rw [htr] at hcon; simp at hcon)] at hok
    rw [bind_eq_ok] at hok
    obtain ⟨tl1, hstage1, hok⟩ := hok
    rw [bind_eq_ok] at hok
    obtain ⟨tlB, hstage2, hok⟩ := hok
    simp only [Except.ok.injEq, Prod.mk.injEq] at hok
    obtain ⟨rfl, rfl⟩ := hok
    exact insertNamePair_hit _ _ _ _ hsne hstage2
  · intro dec st ikvs mkvs tl2 tn2 hmeta hok hprov
    simp only [processItem, hmeta, pyGet, ok_bind, pure_eq_ok] at hok
    simp only [recordOf, origNameOf, newNameOf, provNameOf] at hprov ⊢
    rw [if_neg (fun hcon => by rw [hprov] at hcon; simp at hcon)] at hok
    rw [bind_eq_ok] at hok
    obtain ⟨tl1, hstage1, hok⟩ := hok
    rw [bind_eq_ok] at hok
    obtain ⟨tlB, hstage2, hok⟩ := hok
    simp only [Except.ok.injEq, Prod.mk.injEq] at hok
    obtain ⟨h1, rfl⟩ := hok
    rw [if_pos hprov, lookup_dictInsert, if_pos rfl]

/-- Witness for C8: the universal part applied to the concrete single item of
the reachability example. -/
theorem C8_identity_keys_witness :
    List.lookup "report-123e4567-e89b-12d3-a456-426614174000.pdf"
        [("report-123e4567-e89b-12d3-a456-426614174000.pdf",
           recordOf [("NEW_FILE_NAME", .str "report-123e4567-e89b-12d3-a456-426614174000.pdf"),
                     ("METADATA", .dict [])] []),
         ("report.pdf",
           recordOf [("NEW_FILE_NAME", .str "report-123e4567-e89b-12d3-a456-426614174000.pdf"),
                     ("METADATA", .dict [])] [])]
      = some (recordOf [("NEW_FILE_NAME", .str "report-123e4567-e89b-12d3-a456-426614174000.pdf"),
                        ("METADATA", .dict [])] []) :=
  (C8_identity_keys.1 (fun _ => Option.none) ([], [])
    [("NEW_FILE_NAME", .str "report-123e4567-e89b-12d3-a456-426614174000.pdf"),
     ("METADATA", .dict [])] []
    [("report-123e4567-e89b-12d3-a456-426614174000.pdf",
       recordOf [("NEW_FILE_NAME", .str "report-123e4567-e89b-12d3-a456-426614174000.pdf"),
                 ("METADATA", .dict [])] []),
     ("report.pdf",
       recordOf [("NEW_FILE_NAME", .str "report-123e4567-e89b-12d3-a456-426614174000.pdf"),
                 ("METADATA", .dict [])] [])] []
    "report-123e4567-e89b-12d3-a456-426614174000.pdf" rfl rfl rfl (by decide)).1

/-- Witness for C9: an `int` truth collection degrades to an all-unmatched
comparison, and a single undecodable-metadata item contributes nothing. -/
theorem C9_degrades_locally_witness :
    build_comparison (fun _ => Option.none) [[("Assets", "x.pdf")]] (.int 5)
      = .ok ([[("Assets", "x.pdf")]].map buildRecNone)
    ∧ List.foldlM (processItem (fun _ => Option.none)) ([], [])
        [PyVal.dict [("METADATA", .str "bad json"), ("NEW_FILE_NAME", .str "a.pdf")]]
      = List.foldlM (processItem (fun _ => Option.none)) (([], []) : IdxState) [] :=
  ⟨(C9_degrades_locally.1 (fun _ => Option.none) (.int 5) [[("Assets", "x.pdf")]] rfl rfl).2,
   C9_degrades_locally.2 (fun _ => Option.none) ([], []) "bad json"
     [("METADATA", .str "bad json"), ("NEW_FILE_NAME", .str "a.pdf")] [] [] rfl rfl⟩

theorem pyLower_ne_empty (s : String) (h : s ≠ "") : pyLower s ≠ "" :=
  fun hh => h ((pyLower_eq_empty_iff s).mp hh)

theorem mval_spec (ev : String) :
    mval ev = if pyStrip ev = "" then PyVal.str "" else .bool false := by
  unfold mval
  by_cases h : pyStrip ev = ""
  · rw [if_pos h, if_pos h]
  · rw [if_neg h, if_neg h]
    have hne : "" ≠ pyLower (pyStrip ev) := fun hh => pyLower_ne_empty _ h hh.symm
    rw [beq_eq_false_iff_ne.mpr hne]

theorem recStep_eval_1 (row : List (String × String)) (v0 : PyVal) :
    recStep Option.none row [("File Name", v0)]
      ("Content Type", ["contentType"]) =
    .ok [("File Name", v0),
       ("Truth: Content Type", PyVal.str ""),
       ("Extract: Content Type", .str (pyStrip (rowGet row "Content Type"))),
       ("Content Type Match?", mval (rowGet row "Content Type")),
       ("  ", PyVal.str "")] := by
  rw [recStep_none_eq]
  simp [dictInsert]

theorem recStep_eval_2 (row : List (String × String)) (v0 v1 v2 v3 v4 : PyVal) :
    recStep Option.none row [("File Name", v0), ("Truth: Content Type", v1), ("Extract: Content Type", v2), ("Content Type Match?", v3), ("  ", v4)]
      ("Document Type", ["contentType"]) =
    .ok [("File Name", v0),
       ("Truth: Content Type", v1),
       ("Extract: Content Type", v2),
       ("Content Type Match?", v3),
       ("  ", PyVal.str ""),
       ("Truth: Document Type", PyVal.str ""),
       ("Extract: Document Type", .str (pyStrip (rowGet row "Document Type"))),
       ("Document Type Match?", mval (rowGet row "Document Type"))] := by
  rw [recStep_none_eq]
  simp [dictInsert]

theorem recStep_eval_3 (row : List (String × String)) (v0 v1 v2 v3 v4 v5 v6 v7 : PyVal) :
    recStep Option.none row [("File Name", v0), ("Truth: Content Type", v1), ("Extract: Content Type", v2), ("Content Type Match?", v3), ("  ", v4), ("Truth: Document Type", v5), ("Extract: Document Type", v6), ("Document Type Match?", v7)]
      ("Name", ["metaData", "providerName"]) =
    .ok [("File Name", v0),
       ("Truth: Content Type", v1),
       ("Extract: Content Type", v2),
       ("Content Type Match?", v3),
       ("  ", PyVal.str ""),
       ("Truth: Document Type", v5),
       ("Extract: Document Type", v6),
       ("Document Type Match?", v7),
       ("Truth: Name", PyVal.str ""),
       ("Extract: Name", .str (pyStrip (rowGet row "Name"))),
       ("Name Match?", mval (rowGet row "Name"))] := by
  rw [recStep_none_eq]
  simp [dictInsert]

theorem recStep_eval_4 (row : List (String × String)) (v0 v1 v2 v3 v4 v5 v6 v7 v8 v9 v10 : PyVal) :
    recStep Option.none row [("File Name", v0), ("Truth: Content Type", v1), ("Extract: Content Type", v2), ("Content Type Match?", v3), ("  ", v4), ("Truth: Document Type", v5), ("Extract: Document Type", v6), ("Document Type Match?", v7), ("Truth: Name", v8), ("Extract: Name", v9), ("Name Match?", v10)]
      ("Issuing Entity", ["metaData", "issuingAuthority|issuingEntity|issuer|issuingAgency|issuingOrganization"]) =
    .ok [("File Name", v0),
       ("Truth: Content Type", v1),
       ("Extract: Content Type", v2),
       ("Content Type Match?", v3),
       ("  ", PyVal.str ""),
       ("Truth: Document Type", v5),
       ("Extract: Document Type", v6),
       ("Document Type Match?", v7),
       ("Truth: Name", v8),
       ("Extract: Name", v9),
       ("Name Match?", v10),
       ("Truth: Issuing Entity", PyVal.str ""),
       ("Extract: Issuing Entity", .str (pyStrip (rowGet row "Issuing Entity"))),
       ("Issuing Entity Match?", mval (rowGet row "Issuing Entity"))] := by
  rw [recStep_none_eq]
  simp [dictInsert]

theorem recStep_eval_5 (row : List (String × String)) (v0 v1 v2 v3 v4 v5 v6 v7 v8 v9 v10 v11 v12 v13 : PyVal) :
    recStep Option.none row [("File Name", v0), ("Truth: Content Type", v1), ("Extract: Content Type", v2), ("Content Type Match?", v3), ("  ", v4), ("Truth: Document Type", v5), ("Extract: Document Type", v6), ("Document Type Match?", v7), ("Truth: Name", v8), ("Extract: Name", v9), ("Name Match?", v10), ("Truth: Issuing Entity", v11), ("Extract: Issuing Entity", v12), ("Issuing Entity Match?", v13)]
      ("Issued Date", ["metaData", "issueDate|issuedDate|dateIssued|issuedOn"]) =
    .ok [("File Name", v0),
       ("Truth: Content Type", v1),
       ("Extract: Content Type", v2),
       ("Content Type Match?", v3),
       ("  ", PyVal.str ""),
       ("Truth: Document Type", v5),
       ("Extract: Document Type", v6),
       ("Document Type Match?", v7),
       ("Truth: Name", v8),
       ("Extract: Name", v9),
       ("Name Match?", v10),
       ("Truth: Issuing Entity", v11),
       ("Extract: Issuing Entity", v12),
       ("Issuing Entity Match?", v13),
       ("Truth: Issued Date", PyVal.str ""),
       ("Extract: Issued Date", .str (pyStrip (rowGet row "Issued Date"))),
       ("Issued Date Match?", mval (rowGet row "Issued Date"))] := by
  rw [recStep_none_eq]
  simp [dictInsert]

theorem recStep_eval_6 (row : List (String × String)) (v0 v1 v2 v3 v4 v5 v6 v7 v8 v9 v10 v11 v12 v13 v14 v15 v16 : PyVal) :
    recStep Option.none row [("File Name", v0), ("Truth: Content Type", v1), ("Extract: Content Type", v2), ("Content Type Match?", v3), ("  ", v4), ("Truth: Document Type", v5), ("Extract: Document Type", v6), ("Document Type Match?", v7), ("Truth: Name", v8), ("Extract: Name", v9), ("Name Match?", v10), ("Truth: Issuing Entity", v11), ("Extract: Issuing Entity", v12), ("Issuing Entity Match?", v13), ("Truth: Issued Date", v14), ("Extract: Issued Date", v15), ("Issued Date Match?", v16)]
      ("Expiration Date", ["metaData", "expirationDate|expireDate|expires|expDate"]) =
    .ok [("File Name", v0),
       ("Truth: Content Type", v1),
       ("Extract: Content Type", v2),
       ("Content Type Match?", v3),
       ("  ", PyVal.str ""),
       ("Truth: Document Type", v5),
       ("Extract: Document Type", v6),
       ("Document Type Match?", v7),
       ("Truth: Name", v8),
       ("Extract: Name", v9),
       ("Name Match?", v10),
       ("Truth: Issuing Entity", v11),
       ("Extract: Issuing Entity", v12),
       ("Issuing Entity Match?", v13),
       ("Truth: Issued Date", v14),
       ("Extract: Issued Date", v15),
       ("Issued Date Match?", v16),
       ("Truth: Expiration Date", PyVal.str ""),
       ("Extract: Expiration Date", .str (pyStrip (rowGet row "Expiration Date"))),
       ("Expiration Date Match?", mval (rowGet row "Expiration Date"))] := by
  rw [recStep_none_eq]
  simp [dictInsert]

theorem recStep_eval_7 (row : List (String × String)) (v0 v1 v2 v3 v4 v5 v6 v7 v8 v9 v10 v11 v12 v13 v14 v15 v16 v17 v18 v19 : PyVal) :
    recStep Option.none row [("File Name", v0), ("Truth: Content Type", v1), ("Extract: Content Type", v2), ("Content Type Match?", v3), ("  ", v4), ("Truth: Document Type", v5), ("Extract: Document Type", v6), ("Document Type Match?", v7), ("Truth: Name", v8), ("Extract: Name", v9), ("Name Match?", v10), ("Truth: Issuing Entity", v11), ("Extract: Issuing Entity", v12), ("Issuing Entity Match?", v13), ("Truth: Issued Date", v14), ("Extract: Issued Date", v15), ("Issued Date Match?", v16), ("Truth: Expiration Date", v17), ("Extract: Expiration Date", v18), ("Expiration Date Match?", v19)]
      ("State", ["metaData", "state|stateCode|issuingState|jurisdiction|stateAbbreviation"]) =
    .ok [("File Name", v0),
       ("Truth: Content Type", v1),
       ("Extract: Content Type", v2),
       ("Content Type Match?", v3),
       ("  ", PyVal.str ""),
       ("Truth: Document Type", v5),
       ("Extract: Document Type", v6),
       ("Document Type Match?", v7),
       ("Truth: Name", v8),
       ("Extract: Name", v9),
       ("Name Match?", v10),
       ("Truth: Issuing Entity", v11),
       ("Extract: Issuing Entity", v12),
       ("Issuing Entity Match?", v13),
       ("Truth: Issued Date", v14),
       ("Extract: Issued Date", v15),
       ("Issued Date Match?", v16),
       ("Truth: Expiration Date", v17),
       ("Extract: Expiration Date", v18),
       ("Expiration Date Match?", v19),
       ("Truth: State", PyVal.str ""),
       ("Extract: State", .str (pyStrip (rowGet row "State"))),
       ("State Match?", mval (rowGet row "State"))] := by
  rw [recStep_none_eq]
  simp [dictInsert]

theorem recStep_eval_8 (row : List (String × String)) (v0 v1 v2 v3 v4 v5 v6 v7 v8 v9 v10 v11 v12 v13 v14 v15 v16 v17 v18 v19 v20 v21 v22 : PyVal) :
    recStep Option.none row [("File Name", v0), ("Truth: Content Type", v1), ("Extract: Content Type", v2), ("Content Type Match?", v3), ("  ", v4), ("Truth: Document Type", v5), ("Extract: Document Type", v6), ("Document Type Match?", v7), ("Truth: Name", v8), ("Extract: Name", v9), ("Name Match?", v10), ("Truth: Issuing Entity", v11), ("Extract: Issuing Entity", v12), ("Issuing Entity Match?", v13), ("Truth: Issued Date", v14), ("Extract: Issued Date", v15), ("Issued Date Match?", v16), ("Truth: Expiration Date", v17), ("Extract: Expiration Date", v18), ("Expiration Date Match?", v19), ("Truth: State", v20), ("Extract: State", v21), ("State Match?", v22)]
      ("result_id", ["metaData", "resultsDate"]) =
    .ok [("File Name", v0),
       ("Truth: Content Type", v1),
       ("Extract: Content Type", v2),
       ("Content Type Match?", v3),
       ("  ", PyVal.str ""),
       ("Truth: Document Type", v5),
       ("Extract: Document Type", v6),
       ("Document Type Match?", v7),
       ("Truth: Name", v8),
       ("Extract: Name", v9),
       ("Name Match?", v10),
       ("Truth: Issuing Entity", v11),
       ("Extract: Issuing Entity", v12),
       ("Issuing Entity Match?", v13),
       ("Truth: Issued Date", v14),
       ("Extract: Issued Date", v15),
       ("Issued Date Match?", v16),
       ("Truth: Expiration Date", v17),
       ("Extract: Expiration Date", v18),
       ("Expiration Date Match?", v19),
       ("Truth: State", v20),
       ("Extract: State", v21),
       ("State Match?", v22),
       ("Truth: result_id", PyVal.str ""),
       ("Extract: result_id", .str (pyStrip (rowGet row "result_id"))),
       ("result_id Match?", mval (rowGet row "result_id"))] := by
  rw [recStep_none_eq]
  simp [dictInsert]

theorem recStep_eval_9 (row : List (String × String)) (v0 v1 v2 v3 v4 v5 v6 v7 v8 v9 v10 v11 v12 v13 v14 v15 v16 v17 v18 v19 v20 v21 v22 v23 v24 v25 : PyVal) :
    recStep Option.none row [("File Name", v0), ("Truth: Content Type", v1), ("Extract: Content Type", v2), ("Content Type Match?", v3), ("  ", v4), ("Truth: Document Type", v5), ("Extract: Document Type", v6), ("Document Type Match?", v7), ("Truth: Name", v8), ("Extract: Name", v9), ("Name Match?", v10), ("Truth: Issuing Entity", v11), ("Extract: Issuing Entity", v12), ("Issuing Entity Match?", v13), ("Truth: Issued Date", v14), ("Extract: Issued Date", v15), ("Issued Date Match?", v16), ("Truth: Expiration Date", v17), ("Extract: Expiration Date", v18), ("Expiration Date Match?", v19), ("Truth: State", v20), ("Extract: State", v21), ("State Match?", v22), ("Truth: result_id", v23), ("Extract: result_id", v24), ("result_id Match?", v25)]
      ("Education and Training Sub-Category", ["metaData", "subCategory"]) =
    .ok [("File Name", v0),
       ("Truth: Content Type", v1),
       ("Extract: Content Type", v2),
       ("Content Type Match?", v3),
       ("  ", PyVal.str ""),
       ("Truth: Document Type", v5),
       ("Extract: Document Type", v6),
       ("Document Type Match?", v7),
       ("Truth: Name", v8),
       ("Extract: Name", v9),
       ("Name Match?", v10),
       ("Truth: Issuing Entity", v11),
       ("Extract: Issuing Entity", v12),
       ("Issuing Entity Match?", v13),
       ("Truth: Issued Date", v14),
       ("Extract: Issued Date", v15),
       ("Issued Date Match?", v16),
       ("Truth: Expiration Date", v17),
       ("Extract: Expiration Date", v18),
       ("Expiration Date Match?", v19),
       ("Truth: State", v20),
       ("Extract: State", v21),
       ("State Match?", v22),
       ("Truth: result_id", v23),
       ("Extract: result_id", v24),
       ("result_id Match?", v25),
       ("Truth: Education and Training Sub-Category", PyVal.str ""),
       ("Extract: Education and Training Sub-Category", .str (pyStrip (rowGet row "Education and Training Sub-Category"))),
       ("Education and Training Sub-Category Match?", mval (rowGet row "Education and Training Sub-Category"))] := by
  rw [recStep_none_eq]
  simp [dictInsert]

theorem recStep_eval_10 (row : List (String × String)) (v0 v1 v2 v3 v4 v5 v6 v7 v8 v9 v10 v11 v12 v13 v14 v15 v16 v17 v18 v19 v20 v21 v22 v23 v24 v25 v26 v27 v28 : PyVal) :
    recStep Option.none row [("File Name", v0), ("Truth: Content Type", v1), ("Extract: Content Type", v2), ("Content Type Match?", v3), ("  ", v4), ("Truth: Document Type", v5), ("Extract: Document Type", v6), ("Document Type Match?", v7), ("Truth: Name", v8), ("Extract: Name", v9), ("Name Match?", v10), ("Truth: Issuing Entity", v11), ("Extract: Issuing Entity", v12), ("Issuing Entity Match?", v13), ("Truth: Issued Date", v14), ("Extract: Issued Date", v15), ("Issued Date Match?", v16), ("Truth: Expiration Date", v17), ("Extract: Expiration Date", v18), ("Expiration Date Match?", v19), ("Truth: State", v20), ("Extract: State", v21), ("State Match?", v22), ("Truth: result_id", v23), ("Extract: result_id", v24), ("result_id Match?", v25), ("Truth: Education and Training Sub-Category", v26), ("Extract: Education and Training Sub-Category", v27), ("Education and Training Sub-Category Match?", v28)]
      ("Life Support and Misc. Certifications Sub-Category", ["metaData", "subCategory"]) =
    .ok [("File Name", v0),
       ("Truth: Content Type", v1),
       ("Extract: Content Type", v2),
       ("Content Type Match?", v3),
       ("  ", PyVal.str ""),
       ("Truth: Document Type", v5),
       ("Extract: Document Type", v6),
       ("Document Type Match?", v7),
       ("Truth: Name", v8),
       ("Extract: Name", v9),
       ("Name Match?", v10),
       ("Truth: Issuing Entity", v11),
       ("Extract: Issuing Entity", v12),
       ("Issuing Entity Match?", v13),
       ("Truth: Issued Date", v14),
       ("Extract: Issued Date", v15),
       ("Issued Date Match?", v16),
       ("Truth: Expiration Date", v17),
       ("Extract: Expiration Date", v18),
       ("Expiration Date Match?", v19),
       ("Truth: State", v20),
       ("Extract: State", v21),
       ("State Match?", v22),
       ("Truth: result_id", v23),
       ("Extract: result_id", v24),
       ("result_id Match?", v25),
       ("Truth: Education and Training Sub-Category", v26),
       ("Extract: Education and Training Sub-Category", v27),
       ("Education and Training Sub-Category Match?", v28),
       ("Truth: Life Support and Misc. Certifications Sub-Category", PyVal.str ""),
       ("Extract: Life Support and Misc. Certifications Sub-Category", .str (pyStrip (rowGet row "Life Support and Misc. Certifications Sub-Category"))),
       ("Life Support and Misc. Certifications Sub-Category Match?", mval (rowGet row "Life Support and Misc. Certifications Sub-Category"))] := by
  rw [recStep_none_eq]
  simp [dictInsert]

theorem recStep_eval_11 (row : List (String × String)) (v0 v1 v2 v3 v4 v5 v6 v7 v8 v9 v10 v11 v12 v13 v14 v15 v16 v17 v18 v19 v20 v21 v22 v23 v24 v25 v26 v27 v28 v29 v30 v31 : PyVal) :
    recStep Option.none row [("File Name", v0), ("Truth: Content Type", v1), ("Extract: Content Type", v2), ("Content Type Match?", v3), ("  ", v4), ("Truth: Document Type", v5), ("Extract: Document Type", v6), ("Document Type Match?", v7), ("Truth: Name", v8), ("Extract: Name", v9), ("Name Match?", v10), ("Truth: Issuing Entity", v11), ("Extract: Issuing Entity", v12), ("Issuing Entity Match?", v13), ("Truth: Issued Date", v14), ("Extract: Issued Date", v15), ("Issued Date Match?", v16), ("Truth: Expiration Date", v17), ("Extract: Expiration Date", v18), ("Expiration Date Match?", v19), ("Truth: State", v20), ("Extract: State", v21), ("State Match?", v22), ("Truth: result_id", v23), ("Extract: result_id", v24), ("result_id Match?", v25), ("Truth: Education and Training Sub-Category", v26), ("Extract: Education and Training Sub-Category", v27), ("Education and Training Sub-Category Match?", v28), ("Truth: Life Support and Misc. Certifications Sub-Category", v29), ("Extract: Life Support and Misc. Certifications Sub-Category", v30), ("Life Support and Misc. Certifications Sub-Category Match?", v31)]
      ("Board Certification Sub-Category", ["metaData", "subCategory"]) =
    .ok [("File Name", v0),
       ("Truth: Content Type", v1),
       ("Extract: Content Type", v2),
       ("Content Type Match?", v3),
       ("  ", PyVal.str ""),
       ("Truth: Document Type", v5),
       ("Extract: Document Type", v6),
       ("Document Type Match?", v7),
       ("Truth: Name", v8),
       ("Extract: Name", v9),
       ("Name Match?", v10),
       ("Truth: Issuing Entity", v11),
       ("Extract: Issuing Entity", v12),
       ("Issuing Entity Match?", v13),
       ("Truth: Issued Date", v14),
       ("Extract: Issued Date", v15),
       ("Issued Date Match?", v16),
       ("Truth: Expiration Date", v17),
       ("Extract: Expiration Date", v18),
       ("Expiration Date Match?", v19),
       ("Truth: State", v20),
       ("Extract: State", v21),
       ("State Match?", v22),
       ("Truth: result_id", v23),
       ("Extract: result_id", v24),
       ("result_id Match?", v25),
       ("Truth: Education and Training Sub-Category", v26),
       ("Extract: Education and Training Sub-Category", v27),
       ("Education and Training Sub-Category Match?", v28),
       ("Truth: Life Support and Misc. Certifications Sub-Category", v29),
       ("Extract: Life Support and Misc. Certifications Sub-Category", v30),
       ("Life Support and Misc. Certifications Sub-Category Match?", v31),
       ("Truth: Board Certification Sub-Category", PyVal.str ""),
       ("Extract: Board Certification Sub-Category", .str (pyStrip (rowGet row "Board Certification Sub-Category"))),
       ("Board Certification Sub-Category Match?", mval (rowGet row "Board Certification Sub-Category"))] := by
  rw [recStep_none_eq]
  simp [dictInsert]

theorem recStep_eval_12 (row : List (String × String)) (v0 v1 v2 v3 v4 v5 v6 v7 v8 v9 v10 v11 v12 v13 v14 v15 v16 v17 v18 v19 v20 v21 v22 v23 v24 v25 v26 v27 v28 v29 v30 v31 v32 v33 v34 : PyVal) :
    recStep Option.none row [("File Name", v0), ("Truth: Content Type", v1), ("Extract: Content Type", v2), ("Content Type Match?", v3), ("  ", v4), ("Truth: Document Type", v5), ("Extract: Document Type", v6), ("Document Type Match?", v7), ("Truth: Name", v8), ("Extract: Name", v9), ("Name Match?", v10), ("Truth: Issuing Entity", v11), ("Extract: Issuing Entity", v12), ("Issuing Entity Match?", v13), ("Truth: Issued Date", v14), ("Extract: Issued Date", v15), ("Issued Date Match?", v16), ("Truth: Expiration Date", v17), ("Extract: Expiration Date", v18), ("Expiration Date Match?", v19), ("Truth: State", v20), ("Extract: State", v21), ("State Match?", v22), ("Truth: result_id", v23), ("Extract: result_id", v24), ("result_id Match?", v25), ("Truth: Education and Training Sub-Category", v26), ("Extract: Education and Training Sub-Category", v27), ("Education and Training Sub-Category Match?", v28), ("Truth: Life Support and Misc. Certifications Sub-Category", v29), ("Extract: Life Support and Misc. Certifications Sub-Category", v30), ("Life Support and Misc. Certifications Sub-Category Match?", v31), ("Truth: Board Certification Sub-Category", v32), ("Extract: Board Certification Sub-Category", v33), ("Board Certification Sub-Category Match?", v34)]
      ("DEA Registration Sub-Category", ["metaData", "subCategory"]) =
    .ok [("File Name", v0),
       ("Truth: Content Type", v1),
       ("Extract: Content Type", v2),
       ("Content Type Match?", v3),
       ("  ", PyVal.str ""),
       ("Truth: Document Type", v5),
       ("Extract: Document Type", v6),
       ("Document Type Match?", v7),
       ("Truth: Name", v8),
       ("Extract: Name", v9),
       ("Name Match?", v10),
       ("Truth: Issuing Entity", v11),
       ("Extract: Issuing Entity", v12),
       ("Issuing Entity Match?", v13),
       ("Truth: Issued Date", v14),
       ("Extract: Issued Date", v15),
       ("Issued Date Match?", v16),
       ("Truth: Expiration Date", v17),
       ("Extract: Expiration Date", v18),
       ("Expiration Date Match?", v19),
       ("Truth: State", v20),
       ("Extract: State", v21),
       ("State Match?", v22),
       ("Truth: result_id", v23),
       ("Extract: result_id", v24),
       ("result_id Match?", v25),
       ("Truth: Education and Training Sub-Category", v26),
       ("Extract: Education and Training Sub-Category", v27),
       ("Education and Training Sub-Category Match?", v28),
       ("Truth: Life Support and Misc. Certifications Sub-Category", v29),
       ("Extract: Life Support and Misc. Certifications Sub-Category", v30),
       ("Life Support and Misc. Certifications Sub-Category Match?", v31),
       ("Truth: Board Certification Sub-Category", v32),
       ("Extract: Board Certification Sub-Category", v33),
       ("Board Certification Sub-Category Match?", v34),
       ("Truth: DEA Registration Sub-Category", PyVal.str ""),
       ("Extract: DEA Registration Sub-Category", .str (pyStrip (rowGet row "DEA Registration Sub-Category"))),
       ("DEA Registration Sub-Category Match?", mval (rowGet row "DEA Registration Sub-Category"))] := by
  rw [recStep_none_eq]
  simp [dictInsert]

theorem recStep_eval_13 (row : List (String × String)) (v0 v1 v2 v3 v4 v5 v6 v7 v8 v9 v10 v11 v12 v13 v14 v15 v16 v17 v18 v19 v20 v21 v22 v23 v24 v25 v26 v27 v28 v29 v30 v31 v32 v33 v34 v35 v36 v37 : PyVal) :
    recStep Option.none row [("File Name", v0), ("Truth: Content Type", v1), ("Extract: Content Type", v2), ("Content Type Match?", v3), ("  ", v4), ("Truth: Document Type", v5), ("Extract: Document Type", v6), ("Document Type Match?", v7), ("Truth: Name", v8), ("Extract: Name", v9), ("Name Match?", v10), ("Truth: Issuing Entity", v11), ("Extract: Issuing Entity", v12), ("Issuing Entity Match?", v13), ("Truth: Issued Date", v14), ("Extract: Issued Date", v15), ("Issued Date Match?", v16), ("Truth: Expiration Date", v17), ("Extract: Expiration Date", v18), ("Expiration Date Match?", v19), ("Truth: State", v20), ("Extract: State", v21), ("State Match?", v22), ("Truth: result_id", v23), ("Extract: result_id", v24), ("result_id Match?", v25), ("Truth: Education and Training Sub-Category", v26), ("Extract: Education and Training Sub-Category", v27), ("Education and Training Sub-Category Match?", v28), ("Truth: Life Support and Misc. Certifications Sub-Category", v29), ("Extract: Life Support and Misc. Certifications Sub-Category", v30), ("Life Support and Misc. Certifications Sub-Category Match?", v31), ("Truth: Board Certification Sub-Category", v32), ("Extract: Board Certification Sub-Category", v33), ("Board Certification Sub-Category Match?", v34), ("Truth: DEA Registration Sub-Category", v35), ("Extract: DEA Registration Sub-Category", v36), ("DEA Registration Sub-Category Match?", v37)]
      ("Military Service Sub-Category", ["metaData", "subCategory"]) =
    .ok [("File Name", v0),
       ("Truth: Content Type", v1),
       ("Extract: Content Type", v2),
       ("Content Type Match?", v3),
       ("  ", PyVal.str ""),
       ("Truth: Document Type", v5),
       ("Extract: Document Type", v6),
       ("Document Type Match?", v7),
       ("Truth: Name", v8),
       ("Extract: Name", v9),
       ("Name Match?", v10),
       ("Truth: Issuing Entity", v11),
       ("Extract: Issuing Entity", v12),
       ("Issuing Entity Match?", v13),
       ("Truth: Issued Date", v14),
       ("Extract: Issued Date", v15),
       ("Issued Date Match?", v16),
       ("Truth: Expiration Date", v17),
       ("Extract: Expiration Date", v18),
       ("Expiration Date Match?", v19),
       ("Truth: State", v20),
       ("Extract: State", v21),
       ("State Match?", v22),
       ("Truth: result_id", v23),
       ("Extract: result_id", v24),
       ("result_id Match?", v25),
       ("Truth: Education and Training Sub-Category", v26),
       ("Extract: Education and Training Sub-Category", v27),
       ("Education and Training Sub-Category Match?", v28),
       ("Truth: Life Support and Misc. Certifications Sub-Category", v29),
       ("Extract: Life Support and Misc. Certifications Sub-Category", v30),
       ("Life Support and Misc. Certifications Sub-Category Match?", v31),
       ("Truth: Board Certification Sub-Category", v32),
       ("Extract: Board Certification Sub-Category", v33),
       ("Board Certification Sub-Category Match?", v34),
       ("Truth: DEA Registration Sub-Category", v35),
       ("Extract: DEA Registration Sub-Category", v36),
       ("DEA Registration Sub-Category Match?", v37),
       ("Truth: Military Service Sub-Category", PyVal.str ""),
       ("Extract: Military Service Sub-Category", .str (pyStrip (rowGet row "Military Service Sub-Category"))),
       ("Military Service Sub-Category Match?", mval (rowGet row "Military Service Sub-Category"))] := by
  rw [recStep_none_eq]
  simp [dictInsert]


set_option maxHeartbeats 4000000 in
theorem buildRecNone_explicit (row : List (String × String)) :
    buildRecNone row =
      [("File Name", .str (rowGet row "Assets")),
       ("Truth: Content Type", .str ""),
       ("Extract: Content Type", .str (pyStrip (rowGet row "Content Type"))),
       ("Content Type Match?", mval (rowGet row "Content Type")),
       ("  ", .str ""),
       ("Truth: Document Type", .str ""),
       ("Extract: Document Type", .str (pyStrip (rowGet row "Document Type"))),
       ("Document Type Match?", mval (rowGet row "Document Type")),
       ("Truth: Name", .str ""),
       ("Extract: Name", .str (pyStrip (rowGet row "Name"))),
       ("Name Match?", mval (rowGet row "Name")),
       ("Truth: Issuing Entity", .str ""),
       ("Extract: Issuing Entity", .str (pyStrip (rowGet row "Issuing Entity"))),
       ("Issuing Entity Match?", mval (rowGet row "Issuing Entity")),
       ("Truth: Issued Date", .str ""),
       ("Extract: Issued Date", .str (pyStrip (rowGet row "Issued Date"))),
       ("Issued Date Match?", mval (rowGet row "Issued Date")),
       ("Truth: Expiration Date", .str ""),
       ("Extract: Expiration Date", .str (pyStrip (rowGet row "Expiration Date"))),
       ("Expiration Date Match?", mval (rowGet row "Expiration Date")),
       ("Truth: State", .str ""),
       ("Extract: State", .str (pyStrip (rowGet row "State"))),
       ("State Match?", mval (rowGet row "State")),
       ("Truth: result_id", .str ""),
       ("Extract: result_id", .str (pyStrip (rowGet row "result_id"))),
       ("result_id Match?", mval (rowGet row "result_id")),
       ("Truth: Education and Training Sub-Category", .str ""),
       ("Extract: Education and Training Sub-Category", .str (pyStrip (rowGet row "Education and Training Sub-Category"))),
       ("Education and Training Sub-Category Match?", mval (rowGet row "Education and Training Sub-Category")),
       ("Truth: Life Support and Misc. Certifications Sub-Category", .str ""),
       ("Extract: Life Support and Misc. Certifications Sub-Category", .str (pyStrip (rowGet row "Life Support and Misc. Certifications Sub-Category"))),
       ("Life Support and Misc. Certifications Sub-Category Match?", mval (rowGet row "Life Support and Misc. Certifications Sub-Category")),
       ("Truth: Board Certification Sub-Category", .str ""),
       ("Extract: Board Certification Sub-Category", .str (pyStrip (rowGet row "Board Certification Sub-Category"))),
       ("Board Certification Sub-Category Match?", mval (rowGet row "Board Certification Sub-Category")),
       ("Truth: DEA Registration Sub-Category", .str ""),
       ("Extract: DEA Registration Sub-Category", .str (pyStrip (rowGet row "DEA Registration Sub-Category"))),
       ("DEA Registration Sub-Category Match?", mval (rowGet row "DEA Registration Sub-Category")),
       ("Truth: Military Service Sub-Category", .str ""),
       ("Extract: Military Service Sub-Category", .str (pyStrip (rowGet row "Military Service Sub-Category"))),
       ("Military Service Sub-Category Match?", mval (rowGet row "Military Service Sub-Category"))] := by
  unfold buildRecNone
  simp only [buildRec, MAPPING, List.foldlM_cons, List.foldlM_nil,
    recStep_eval_1, recStep_eval_2, recStep_eval_3, recStep_eval_4, recStep_eval_5,
    recStep_eval_6, recStep_eval_7, recStep_eval_8, recStep_eval_9, recStep_eval_10,
    recStep_eval_11, recStep_eval_12, recStep_eval_13,
    ok_bind, pure_eq_ok, Except.toOption, Option.getD]

set_option maxHeartbeats 8000000 in
/-- C10: an extract row that matches no truth record gets, for every mapped
field, the verdict `False` whenever its extract cell normalizes to a
non-empty string (a mismatch against the empty truth side), and the empty
no-opinion verdict exactly when the extract side is empty after
normalization. -/
theorem C10_unmatched_verdicts :
    (∀ (tl tn : List (String × PyVal)) (row : List (String × String)),
        resolve_truth tl tn row = Option.none →
        buildRec (resolve_truth tl tn row) row = .ok (buildRecNone row))
    ∧ (∀ (row : List (String × String)) (h : String) (p : List String),
        (h, p) ∈ MAPPING →
        (buildRecNone row).lookup (h ++ " Match?")
          = some (if pyStrip (rowGet row h) = "" then PyVal.str "" else PyVal.bool false)) := by
  constructor
  · intro tl tn row hres
    rw [hres]
    exact buildRec_none_ok row
  · intro row h p hmem
    simp only [MAPPING, List.mem_cons, List.not_mem_nil, or_false, Prod.mk.injEq] at hmem
    rcases hmem with hc|hc|hc|hc|hc|hc|hc|hc|hc|hc|hc|hc|hc <;>
      (obtain ⟨rfl, rfl⟩ := hc; rw [buildRecNone_explicit]; simp [List.lookup, mval_spec])

/-- Witness for C10: an unmatched row with `Content Type = "PDF"` gets the
verdict `False` there, and the no-opinion verdict on the empty `State` cell. -/
theorem C10_unmatched_verdicts_witness :
    buildRec (resolve_truth [] [] [("Assets", "unknown.pdf"), ("Content Type", "PDF")])
        [("Assets", "unknown.pdf"), ("Content Type", "PDF")]
      = .ok (buildRecNone [("Assets", "unknown.pdf"), ("Content Type", "PDF")])
    ∧ (buildRecNone [("Assets", "unknown.pdf"), ("Content Type", "PDF")]).lookup
        ("Content Type" ++ " Match?") = some (PyVal.bool false)
    ∧ (buildRecNone [("Assets", "unknown.pdf"), ("Content Type", "PDF")]).lookup
        ("State" ++ " Match?") = some (PyVal.str "") := by
  refine ⟨C10_unmatched_verdicts.1 [] [] _ rfl, ?_, ?_⟩
  · have h := C10_unmatched_verdicts.2 [("Assets", "unknown.pdf"), ("Content Type", "PDF")]
      "Content Type" ["contentType"] (by simp [MAPPING])
    simpa using h
  · have h := C10_unmatched_verdicts.2 [("Assets", "unknown.pdf"), ("Content Type", "PDF")]
      "State" ["metaData", "state|stateCode|issuingState|jurisdiction|stateAbbreviation"]
      (by simp [MAPPING])
    simpa using h
